import Mathlib

/-!
Verification of the JWT lifecycle core of the FLASK_PPC repository
(`src/app.py`, `src/routes/admin.py`) via a shallow embedding.

Timestamps are modelled as `Int` (epoch seconds), JSON payload claims as
optional fields, and the mutable Flask state (`token_blacklist`,
`TOKEN_ISSUED_AFTER`, the two lifetime configs) as an explicit record that
handlers take and return.
-/

namespace FlaskPPC

/-- Decoded JWT payload as the verification layer reads it:
`sub` (identity), `typ` (the "type" claim, "access" or "refresh"),
`jti` (unique token identifier), and the optional `exp` / `iat`
timestamp claims, read with `dict.get` in `app.py`. -/
structure Payload where
  sub : String
  typ : String
  jti : String
  exp : Option Int
  iat : Option Int
deriving DecidableEq

/-- HTTP reply as a (message, status-code) pair, the shape every handler in
`app.py` returns via `jsonify(msg=...), code`. -/
structure HttpResponse where
  msg : String
  status : Nat
deriving DecidableEq

/-- Mutable application state relevant to token verification:
`token_blacklist` (the set of revoked jti, `app.py` line 98),
`token_issued_after` (the cutoff, config key `TOKEN_ISSUED_AFTER`),
and the two configured lifetimes in seconds. -/
structure AuthState where
  token_blacklist : List String
  token_issued_after : Int
  access_expires : Int
  refresh_expires : Int
deriving DecidableEq

/-- State built by `create_app` (`app.py` lines 80-98): empty blacklist and
cutoff initialised to the application start time. -/
def create_app_state (start_time access_exp refresh_exp : Int) : AuthState :=
  ⟨[], start_time, access_exp, refresh_exp⟩

/-- Modelled from the spec: the JWT library's expiry verification, which runs
while decoding, before any of the repository's own callbacks.  The library
(PyJWT, not part of this repository's sources) enforces the closed-open
validity interval the spec states: a token whose `exp` satisfies
`exp <= now` raises `ExpiredSignatureError` at decode time. -/
def jwt_lib_expired (now : Int) (p : Payload) : Bool :=
  match p.exp with
  | some e => e ≤ now
  | none => false

/-- Blocklist callback `check_if_token_revoked` (`app.py` lines 100-121):
reject when the jti is blacklisted, when `exp < now` (manual check), or when
`iat < TOKEN_ISSUED_AFTER`; a missing `iat` defaults to `0`
(`jwt_payload.get("iat", 0)`). -/
def check_if_token_revoked (st : AuthState) (now : Int) (p : Payload) : Bool :=
  let manual_expired : Bool := match p.exp with | some e => e < now | none => false
  if st.token_blacklist.contains p.jti then true
  else if manual_expired then true
  else if p.iat.getD 0 < st.token_issued_after then true
  else false

/-- Outcome of `@jwt_required()` admission on a decoded (well-signed) token. -/
inductive Admission where
  | granted (subject : String)
  | expired
  | wrongType
  | revoked
deriving DecidableEq

/-- Admission pipeline run by `@jwt_required()` on a decodable token, in the
order the framework applies it: library expiry verification, token-type
verification (access required), then the blocklist callback; on success the
handler runs with the token's subject. -/
def protected_admission (st : AuthState) (now : Int) (p : Payload) : Admission :=
  if jwt_lib_expired now p then .expired
  else if p.typ ≠ "access" then .wrongType
  else if check_if_token_revoked st now p then .revoked
  else .granted p.sub

/-- Response of `expired_token_callback` (`app.py` lines 131-134). -/
def expired_token_callback : HttpResponse := ⟨"❌ Token expired", 401⟩

/-- Response of `invalid_token_callback` (`app.py` lines 136-139). -/
def invalid_token_callback : HttpResponse := ⟨"❌ Invalid token", 422⟩

/-- Response of `revoked_token_callback` (`app.py` lines 146-149), fired
whenever the blocklist callback returns true — for individually revoked
tokens and for tokens issued before the cutoff alike. -/
def revoked_token_callback : HttpResponse := ⟨"❌ Token revoked", 401⟩

/-- External response produced when admission rejects a decodable token
(`none` when the token is admitted and the handler runs). -/
def rejection_response (st : AuthState) (now : Int) (p : Payload) :
    Option HttpResponse :=
  match protected_admission st now p with
  | .granted _ => none
  | .expired => some expired_token_callback
  | .wrongType => some invalid_token_callback
  | .revoked => some revoked_token_callback

/-- Route `/logout` (`app.py` lines 123-129): guarded by `@jwt_required()`;
on admission the handler adds the token's jti to the blacklist and replies
200; on rejection the matching callback replies and the state is unchanged. -/
def logout_route (st : AuthState) (now : Int) (p : Payload) :
    HttpResponse × AuthState :=
  match protected_admission st now p with
  | .granted _ =>
      (⟨"Logged out successfully", 200⟩,
        { st with token_blacklist := st.token_blacklist.insert p.jti })
  | .expired => (expired_token_callback, st)
  | .wrongType => (invalid_token_callback, st)
  | .revoked => (revoked_token_callback, st)

/-- Token minted by `create_access_token(identity=...)`: type "access",
fresh jti, `iat = now`, `exp = now + JWT_ACCESS_TOKEN_EXPIRES`. -/
def mint_access (st : AuthState) (now : Int) (identity freshJti : String) :
    Payload :=
  ⟨identity, "access", freshJti, some (now + st.access_expires), some now⟩

/-- Body token of a `/refresh` request: absent, undecodable (bad signature or
malformed, PyJWT `InvalidTokenError`), or decoded to a payload. -/
inductive TokenInput where
  | missing
  | undecodable
  | decoded (p : Payload)

/-- Result of the `/refresh` route: a newly minted access token or an error
reply. -/
inductive RefreshResult where
  | ok (newToken : Payload)
  | error (resp : HttpResponse)
deriving DecidableEq

/-- Route `/refresh` (`app.py` lines 190-219): decode the body token
(signature and expiry verified by the library), require type "refresh",
reject a blacklisted jti, then mint a new access token.  The cutoff
`TOKEN_ISSUED_AFTER` is never consulted on this path. -/
def refresh_route (st : AuthState) (now : Int) (tok : TokenInput)
    (freshJti : String) : RefreshResult :=
  match tok with
  | .missing => .error ⟨"❌ Missing token in JSON body", 401⟩
  | .undecodable => .error ⟨"❌ Invalid token", 422⟩
  | .decoded p =>
      if jwt_lib_expired now p then .error ⟨"❌ Token expired", 401⟩
      else if p.typ ≠ "refresh" then
        .error ⟨"❌ Token is not a refresh token", 422⟩
      else if st.token_blacklist.contains p.jti then
        .error ⟨"❌ Token revoked", 401⟩
      else .ok (mint_access st now p.sub freshJti)

/-- JSON body of a request to the `app.py` route `/admin/set_token_expiry`:
optional integer fields `access_seconds` and `refresh_seconds`. -/
structure AppExpiryBody where
  access_seconds : Option Int
  refresh_seconds : Option Int
deriving DecidableEq

/-- Route `/admin/set_token_expiry` as registered in `app.py` (lines
228-245): no authentication of any kind is performed (the `_auth` argument,
the request's credentials, is never read); each supplied lifetime is stored
unvalidated, and the cutoff is set to the current time unconditionally. -/
def set_token_expiry_app (st : AuthState) (now : Int)
    (_auth : Option (String × String)) (body : AppExpiryBody) :
    HttpResponse × AuthState :=
  let st1 := match body.access_seconds with
    | some a => { st with access_expires := a }
    | none => st
  let st2 := match body.refresh_seconds with
    | some r => { st1 with refresh_expires := r }
    | none => st1
  (⟨"Token expiry updated and old tokens invalidated", 200⟩,
    { st2 with token_issued_after := now })

/-- Basic-auth credentials of a request to the admin blueprint. -/
structure AdminCreds where
  username : String
  password : String
deriving DecidableEq

/-- Gate `basic_auth_required` (`routes/admin.py` lines 39-60): missing or
empty credentials give 401; a username or password mismatch against the
stored admin credential gives 403; otherwise the wrapped handler runs
(`none`).  The bcrypt hash comparison is modelled as string equality.
This decorator guards the blueprint route only; the blueprint is never
registered by `create_app`. -/
def basic_auth_check (dbUser dbPass : String) (auth : Option AdminCreds) :
    Option HttpResponse :=
  match auth with
  | none => some ⟨"❌ Missing or invalid authentication", 401⟩
  | some c =>
      if c.username = "" ∨ c.password = "" then
        some ⟨"❌ Missing or invalid authentication", 401⟩
      else if c.username ≠ dbUser then
        some ⟨"❌ Invalid username or password", 403⟩
      else if c.password ≠ dbPass then
        some ⟨"❌ Invalid username or password", 403⟩
      else none

/-- Key built by `time_to_seconds` for a unit, f-string `f"{prefix}_{unit}"`. -/
def unit_key (pref unit : String) : String := pref ++ "_" ++ unit

/-- Unit multipliers of `time_to_seconds` (`routes/admin.py` lines 79-84),
in the dict's iteration order. -/
def multipliers : List (String × Int) :=
  [("second", 1), ("minute", 60), ("hour", 3600), ("day", 86400)]

/-- Loop body of `time_to_seconds`: walk the units, skip absent keys, abort
with `none` on a negative value, and accumulate `val * mult` otherwise;
return the total only if some key was found.  JSON values are modelled as
integers (`data` maps a key to its integer value when present). -/
def time_to_seconds_aux (data : String → Option Int) (pref : String) :
    List (String × Int) → Int → Bool → Option Int
  | [], total, found => if found then some total else none
  | (unit, mult) :: rest, total, found =>
      match data (unit_key pref unit) with
      | none => time_to_seconds_aux data pref rest total found
      | some v =>
          if v < 0 then none
          else time_to_seconds_aux data pref rest (total + v * mult) true

/-- Function `time_to_seconds` (`routes/admin.py` lines 73-98). -/
def time_to_seconds (data : String → Option Int) (pref : String) :
    Option Int :=
  time_to_seconds_aux data pref multipliers 0 false

/-- Blueprint route `set_token_expiry` (`routes/admin.py` lines 101-133),
body after the decorators: convert both prefixes, reply 400 when neither is
valid, otherwise apply each valid lifetime and set the cutoff to now. -/
def set_token_expiry_admin (st : AuthState) (now : Int)
    (data : String → Option Int) : HttpResponse × AuthState :=
  let access_seconds := time_to_seconds data "access"
  let refresh_seconds := time_to_seconds data "refresh"
  if access_seconds.isNone && refresh_seconds.isNone then
    (⟨"❌ Must provide at least one valid access_* or refresh_* time parameter (second/minute/hour/day)", 400⟩,
      st)
  else
    let st1 := match access_seconds with
      | some a => { st with access_expires := a }
      | none => st
    let st2 := match refresh_seconds with
      | some r => { st1 with refresh_expires := r }
      | none => st1
    (⟨"✅ Token expiry updated and old tokens invalidated", 200⟩,
      { st2 with token_issued_after := now })

/-- Helper: the `app.py` policy-change handler always sets the cutoff to
the current time, whatever the body holds. -/
theorem set_token_expiry_app_cutoff (st : AuthState) (now : Int)
    (auth : Option (String × String)) (body : AppExpiryBody) :
    (set_token_expiry_app st now auth body).snd.token_issued_after = now := by
  rcases body with ⟨a, r⟩
  cases a <;> cases r <;> rfl

/-- C1: a protected-route admission request carrying a decodable access token
with expiry `e` and issue time `i` is admitted — the handler runs with the
token's subject — if and only if `now < e`, the jti is not blacklisted, and
`i` is at or after the cutoff; when any condition fails the result is a
rejection, not `granted`. -/
theorem C1_protected_admission_iff (st : AuthState) (now e i : Int)
    (sub jti : String) :
    protected_admission st now ⟨sub, "access", jti, some e, some i⟩ =
        .granted sub ↔
      now < e ∧ st.token_blacklist.contains jti = false ∧
        st.token_issued_after ≤ i := by
  simp only [protected_admission, jwt_lib_expired, check_if_token_revoked]
  cases hbl : st.token_blacklist.contains jti <;>
    by_cases h1 : e ≤ now <;> by_cases h3 : e < now <;>
      by_cases h4 : i < st.token_issued_after <;>
        simp [hbl, h1, h3, h4] <;> omega

/-- C5: a token whose expires-at equals the admission time exactly is
rejected as expired: the library's expiry verification enforces the
closed-open validity interval, so `exp = now` fails before any handler
runs. -/
theorem C5_exp_equal_now_expired (st : AuthState) (now : Int)
    (sub jti : String) (iat : Option Int) :
    protected_admission st now ⟨sub, "access", jti, some now, iat⟩ =
      .expired := by
  simp [protected_admission, jwt_lib_expired]

/-- C6: a token whose issued-at equals the current cutoff exactly is not
invalidated by the cutoff check (which rejects only `iat < cutoff`): if it
is also unexpired and unrevoked it is admitted. -/
theorem C6_iat_equal_cutoff_honored (st : AuthState) (now e : Int)
    (sub jti : String) (hbl : st.token_blacklist.contains jti = false)
    (hexp : now < e) :
    protected_admission st now
        ⟨sub, "access", jti, some e, some st.token_issued_after⟩ =
      .granted sub := by
  have h1 : ¬(e ≤ now) := by omega
  have h3 : ¬(e < now) := by omega
  have h4 : ¬(st.token_issued_after < st.token_issued_after) := by omega
  have hbl2 : jti ∉ st.token_blacklist := by
    simpa using hbl
  simp [protected_admission, jwt_lib_expired, check_if_token_revoked, hbl2,
    h1, h3, h4]

/-- C6 witness: a concrete unrevoked, unexpired token minted exactly at the
cutoff instant is admitted. -/
theorem C6_iat_equal_cutoff_honored_witness :
    ([] : List String).contains "j" = false ∧ (10 : Int) < 20 ∧
      protected_admission ⟨[], 5, 60, 300⟩ 10
          ⟨"u", "access", "j", some 20, some 5⟩ =
        .granted "u" :=
  ⟨by decide, by decide,
    C6_iat_equal_cutoff_honored ⟨[], 5, 60, 300⟩ 10 20 "u" "j" (by decide)
      (by decide)⟩

/-- C10: a decodable access token lacking an `iat` claim has its issue time
defaulted to `0` by the blocklist callback; whenever the cutoff is positive
(as it is from creation on, being initialised to the application start
time), such a token is never admitted at a protected route. -/
theorem C10_missing_iat_rejected (st : AuthState) (now : Int)
    (e : Option Int) (sub jti s : String)
    (hpos : 0 < st.token_issued_after) :
    protected_admission st now ⟨sub, "access", jti, e, none⟩ ≠
      .granted s := by
  simp only [protected_admission, jwt_lib_expired, check_if_token_revoked,
    Option.getD]
  split_ifs <;> simp_all

/-- C10 witness: at the freshly created application state with start time 5,
a concrete token with no `iat` claim is rejected. -/
theorem C10_missing_iat_rejected_witness :
    0 < (create_app_state 5 60 300).token_issued_after ∧
      protected_admission (create_app_state 5 60 300) 10
          ⟨"u", "access", "j", some 100, none⟩ ≠
        .granted "u" :=
  ⟨by decide,
    C10_missing_iat_rejected (create_app_state 5 60 300) 10 (some 100) "u"
      "j" "u" (by decide)⟩

/-- C2: failing input for the claim that `/refresh` checks the issuance
cutoff.  At state with cutoff 50, a well-signed, unexpired (`exp = 100 >
now = 10`), unrevoked refresh token issued at time 0 — before the cutoff,
as the second conjunct shows by running the blocklist callback on it — is
accepted by the refresh route, which mints and returns a new access token
instead of rejecting the request. -/
theorem C2_refresh_ignores_cutoff :
    refresh_route ⟨[], 50, 60, 300⟩ 10
        (.decoded ⟨"u", "refresh", "j", some 100, some 0⟩) "k" =
      .ok ⟨"u", "access", "k", some 70, some 10⟩ ∧
      check_if_token_revoked ⟨[], 50, 60, 300⟩ 10
        ⟨"u", "refresh", "j", some 100, some 0⟩ = true := by
  decide

/-- C3: failing input for the claim that policy changes require an admin
credential.  The registered route (`app.py` `set_token_expiry`) accepts a
request carrying no credentials at all: it replies 200, stores the new
access lifetime and advances the cutoff.  The basic-auth gate that would
have rejected the credential-less request exists only on the blueprint in
`routes/admin.py`, which `create_app` never registers. -/
theorem C3_policy_change_unauthenticated :
    (set_token_expiry_app ⟨[], 0, 60, 300⟩ 99 none
        ⟨some 3600, none⟩).fst.status = 200 ∧
      (set_token_expiry_app ⟨[], 0, 60, 300⟩ 99 none ⟨some 3600, none⟩).snd =
        ⟨[], 99, 3600, 300⟩ ∧
      basic_auth_check "AdminHS" "pw" none =
        some ⟨"❌ Missing or invalid authentication", 401⟩ := by
  decide

/-- C4 counterexample: an expired token and a revoked token receive
different external responses ("❌ Token expired" versus "❌ Token revoked"),
so the three rejection causes are not collapsed to one single outcome and an
external caller can distinguish expiry from revocation. -/
theorem C4_counterexample :
    rejection_response ⟨[], 0, 60, 300⟩ 10
        ⟨"u", "access", "j", some 5, some 0⟩ =
      some expired_token_callback ∧
      rejection_response ⟨["j"], 0, 60, 300⟩ 10
          ⟨"u", "access", "j", some 100, some 0⟩ =
        some revoked_token_callback ∧
      expired_token_callback ≠ revoked_token_callback := by
  decide

/-- C4 amended: every decodable access token the blocklist callback rejects
— whether individually revoked or issued before the cutoff — receives the
identical response ("❌ Token revoked", 401), and both that response and the
expired response carry status 401; only the message separates expiry from
the other two causes. -/
theorem C4_amended_collapsed_statuses (st st2 : AuthState) (now : Int)
    (p q : Payload) (hp1 : jwt_lib_expired now p = false)
    (hp2 : p.typ = "access") (hp3 : check_if_token_revoked st now p = true)
    (hq1 : jwt_lib_expired now q = false) (hq2 : q.typ = "access")
    (hq3 : check_if_token_revoked st2 now q = true) :
    rejection_response st now p = rejection_response st2 now q ∧
      rejection_response st now p = some revoked_token_callback ∧
      revoked_token_callback.status = 401 ∧
      expired_token_callback.status = 401 := by
  simp [rejection_response, protected_admission, hp1, hp2, hp3, hq1, hq2,
    hq3, expired_token_callback, revoked_token_callback]

/-- C4 amended witness: a concrete individually revoked token and a concrete
issued-before-cutoff token produce the same external response. -/
theorem C4_amended_collapsed_statuses_witness :
    check_if_token_revoked ⟨["j"], 0, 60, 300⟩ 10
        ⟨"u", "access", "j", some 100, some 0⟩ = true ∧
      check_if_token_revoked ⟨[], 50, 60, 300⟩ 10
        ⟨"u", "access", "k", some 100, some 0⟩ = true ∧
      rejection_response ⟨["j"], 0, 60, 300⟩ 10
          ⟨"u", "access", "j", some 100, some 0⟩ =
        rejection_response ⟨[], 50, 60, 300⟩ 10
          ⟨"u", "access", "k", some 100, some 0⟩ :=
  ⟨by decide, by decide,
    (C4_amended_collapsed_statuses ⟨["j"], 0, 60, 300⟩ ⟨[], 50, 60, 300⟩ 10
        ⟨"u", "access", "j", some 100, some 0⟩
        ⟨"u", "access", "k", some 100, some 0⟩ (by decide) rfl (by decide)
        (by decide) rfl (by decide)).1⟩

/-- C7 counterexample: with the cutoff at 10, a policy-change request
handled at clock time 5 sets the cutoff to 5 — the code assigns
`TOKEN_ISSUED_AFTER = now` unconditionally, so the regression attempt is
neither rejected nor a no-op and the cutoff does not stay at 10. -/
theorem C7_counterexample :
    (set_token_expiry_app ⟨[], 10, 60, 300⟩ 5 none
        ⟨some 60, none⟩).snd.token_issued_after = 5 ∧
      (set_token_expiry_app ⟨[], 10, 60, 300⟩ 5 none
          ⟨some 60, none⟩).snd.token_issued_after ≠ 10 := by
  decide

/-- C7 amended: each policy change sets the cutoff to the current clock
time unconditionally; provided the clock is non-decreasing (the second call
is handled at a time `t2 ≥ t1`), the cutoff never moves backward across two
successive policy changes. -/
theorem C7_amended_monotone_under_clock (st : AuthState) (t1 t2 : Int)
    (h : t1 ≤ t2) (a1 a2 : Option (String × String))
    (b1 b2 : AppExpiryBody) :
    (set_token_expiry_app st t1 a1 b1).snd.token_issued_after = t1 ∧
      (set_token_expiry_app (set_token_expiry_app st t1 a1 b1).snd t2 a2
          b2).snd.token_issued_after = t2 ∧
      (set_token_expiry_app st t1 a1 b1).snd.token_issued_after ≤
        (set_token_expiry_app (set_token_expiry_app st t1 a1 b1).snd t2 a2
            b2).snd.token_issued_after := by
  refine ⟨set_token_expiry_app_cutoff st t1 a1 b1,
    set_token_expiry_app_cutoff _ t2 a2 b2, ?_⟩
  rw [set_token_expiry_app_cutoff, set_token_expiry_app_cutoff]
  exact h

/-- C7 amended witness: two concrete successive policy changes at times 3
and then 7 leave the cutoff at 7, never moving it backward. -/
theorem C7_amended_monotone_under_clock_witness :
    (3 : Int) ≤ 7 ∧
      ((set_token_expiry_app ⟨[], 0, 60, 300⟩ 3 none
          ⟨some 60, none⟩).snd.token_issued_after = 3 ∧
        (set_token_expiry_app
            (set_token_expiry_app ⟨[], 0, 60, 300⟩ 3 none
              ⟨some 60, none⟩).snd 7 none
            ⟨none, some 600⟩).snd.token_issued_after = 7 ∧
        (set_token_expiry_app ⟨[], 0, 60, 300⟩ 3 none
            ⟨some 60, none⟩).snd.token_issued_after ≤
          (set_token_expiry_app
              (set_token_expiry_app ⟨[], 0, 60, 300⟩ 3 none
                ⟨some 60, none⟩).snd 7 none
              ⟨none, some 600⟩).snd.token_issued_after) :=
  ⟨by decide,
    C7_amended_monotone_under_clock ⟨[], 0, 60, 300⟩ 3 7 (by decide) none
      none ⟨some 60, none⟩ ⟨none, some 600⟩⟩

/-- C9 counterexample: a first logout with a fresh valid token returns 200,
but repeating the same logout with the same token returns 401 — the
blocklist check guarding `/logout` rejects the now-revoked token before the
handler runs, so logging out twice does not yield the same observed
success. -/
theorem C9_counterexample :
    (logout_route ⟨[], 0, 60, 300⟩ 10
        ⟨"u", "access", "j", some 100, some 0⟩).fst.status = 200 ∧
      (logout_route
          (logout_route ⟨[], 0, 60, 300⟩ 10
            ⟨"u", "access", "j", some 100, some 0⟩).snd 10
          ⟨"u", "access", "j", some 100, some 0⟩).fst.status = 401 := by
  decide

/-- C9 amended: for a token the admission check grants, the first logout
returns 200 and blacklists the jti; the second logout with the same token is
rejected as revoked (401) before its handler runs and leaves the registry
state unchanged — so the registry state after two logouts equals the state
after one, but the externally observed outcome differs. -/
theorem C9_amended_second_logout_rejected (st : AuthState) (now : Int)
    (p : Payload) (h : protected_admission st now p = .granted p.sub) :
    (logout_route st now p).fst = ⟨"Logged out successfully", 200⟩ ∧
      logout_route (logout_route st now p).snd now p =
        (revoked_token_callback, (logout_route st now p).snd) := by
  have hlib : jwt_lib_expired now p = false := by
    cases hx : jwt_lib_expired now p
    · rfl
    · simp [protected_admission, hx] at h
  have htyp : p.typ = "access" := by
    by_cases hx : p.typ = "access"
    · exact hx
    · simp [protected_admission, hlib, hx] at h
  have hrev : check_if_token_revoked
      { st with token_blacklist := st.token_blacklist.insert p.jti } now p =
        true := by
    simp [check_if_token_revoked]
  have hadm : protected_admission
      { st with token_blacklist := st.token_blacklist.insert p.jti } now p =
        .revoked := by
    simp [protected_admission, hlib, htyp, hrev]
  constructor
  · simp [logout_route, h]
  · simp [logout_route, h, hadm]

/-- C9 amended witness: concrete double logout — first 200 and blacklist
the jti, second 401 with the registry unchanged. -/
theorem C9_amended_second_logout_rejected_witness :
    protected_admission ⟨[], 0, 60, 300⟩ 10
        ⟨"u", "access", "j", some 100, some 0⟩ = .granted "u" ∧
      ((logout_route ⟨[], 0, 60, 300⟩ 10
          ⟨"u", "access", "j", some 100, some 0⟩).fst =
        ⟨"Logged out successfully", 200⟩ ∧
        logout_route
            (logout_route ⟨[], 0, 60, 300⟩ 10
              ⟨"u", "access", "j", some 100, some 0⟩).snd 10
            ⟨"u", "access", "j", some 100, some 0⟩ =
          (revoked_token_callback,
            (logout_route ⟨[], 0, 60, 300⟩ 10
              ⟨"u", "access", "j", some 100, some 0⟩).snd)) :=
  ⟨by decide,
    C9_amended_second_logout_rejected ⟨[], 0, 60, 300⟩ 10
      ⟨"u", "access", "j", some 100, some 0⟩ (by decide)⟩

/-- Helper: `time_to_seconds_aux` returns `none` whenever some listed unit
key holds a negative value, whatever the accumulator. -/
theorem time_to_seconds_aux_neg (data : String → Option Int) (pref : String)
    (l : List (String × Int)) (total : Int) (found : Bool)
    (h : ∃ u m, (u, m) ∈ l ∧ ∃ v, data (unit_key pref u) = some v ∧ v < 0) :
    time_to_seconds_aux data pref l total found = none := by
  induction l generalizing total found with
  | nil =>
      rcases h with ⟨u, m, hm, _⟩
      simp at hm
  | cons hd tl ih =>
      rcases h with ⟨u, m, hm, v, hv, hneg⟩
      rcases hd with ⟨u0, m0⟩
      rcases List.mem_cons.mp hm with heq | hmem
      · rcases Prod.mk.injEq .. ▸ heq with ⟨rfl, rfl⟩
        have hvneg : v < 0 := hneg
        simp [time_to_seconds_aux, hv, hvneg]
      · cases hd0 : data (unit_key pref u0) with
        | none =>
            simp only [time_to_seconds_aux, hd0]
            exact ih total found ⟨u, m, hmem, v, hv, hneg⟩
        | some w =>
            by_cases hw : w < 0
            · simp [time_to_seconds_aux, hd0, hw]
            · simp only [time_to_seconds_aux, hd0, if_neg hw]
              exact ih (total + w * m0) true ⟨u, m, hmem, v, hv, hneg⟩

/-- C8 counterexample: a policy-change request supplying a zero lifetime
(`access_second = 0`) is not rejected — the blueprint handler replies 200
and stores an access lifetime of 0 seconds. -/
theorem C8_counterexample :
    (set_token_expiry_admin ⟨[], 0, 60, 300⟩ 5
        (fun k => if k = "access_second" then some 0 else none)).fst.status =
      200 ∧
      (set_token_expiry_admin ⟨[], 0, 60, 300⟩ 5
          (fun k => if k = "access_second" then some 0 else
            none)).snd.access_expires = 0 := by
  decide

/-- C8 amended: a *negative* value in any access unit key makes the whole
access conversion invalid (`none`), so the stored access lifetime is never
updated to it, and when the refresh conversion is also invalid the request
fails with the 400 reply and the state is entirely unchanged; a zero value,
by contrast, is accepted (see the counterexample). -/
theorem C8_amended_negative_not_applied (st : AuthState) (now : Int)
    (data : String → Option Int)
    (h : ∃ u m, (u, m) ∈ multipliers ∧
      ∃ v, data (unit_key "access" u) = some v ∧ v < 0) :
    time_to_seconds data "access" = none ∧
      (set_token_expiry_admin st now data).snd.access_expires =
        st.access_expires ∧
      (time_to_seconds data "refresh" = none →
        set_token_expiry_admin st now data =
          (⟨"❌ Must provide at least one valid access_* or refresh_* time parameter (second/minute/hour/day)", 400⟩,
            st)) := by
  have hacc : time_to_seconds data "access" = none :=
    time_to_seconds_aux_neg data "access" multipliers 0 false h
  refine ⟨hacc, ?_, ?_⟩
  · cases hr : time_to_seconds data "refresh" <;>
      simp [set_token_expiry_admin, hacc, hr]
  · intro hrefresh
    simp [set_token_expiry_admin, hacc, hrefresh]

/-- C8 amended witness: a concrete request carrying `access_second = -1`
and no refresh field yields an invalid access conversion, leaves the access
lifetime untouched, and makes the whole request fail with 400. -/
theorem C8_amended_negative_not_applied_witness :
    (∃ u m, (u, m) ∈ multipliers ∧
      ∃ v, (fun k => if k = "access_second" then some (-1 : Int) else none)
          (unit_key "access" u) = some v ∧ v < 0) ∧
      (time_to_seconds
          (fun k => if k = "access_second" then some (-1 : Int) else none)
          "access" = none ∧
        (set_token_expiry_admin ⟨[], 0, 60, 300⟩ 5
            (fun k => if k = "access_second" then some (-1 : Int) else
              none)).snd.access_expires = 60 ∧
        (time_to_seconds
            (fun k => if k = "access_second" then some (-1 : Int) else none)
            "refresh" = none →
          set_token_expiry_admin ⟨[], 0, 60, 300⟩ 5
              (fun k => if k = "access_second" then some (-1 : Int) else
                none) =
            (⟨"❌ Must provide at least one valid access_* or refresh_* time parameter (second/minute/hour/day)", 400⟩,
              ⟨[], 0, 60, 300⟩))) :=
  ⟨⟨"second", 1, by decide, -1, by decide, by decide⟩,
    C8_amended_negative_not_applied ⟨[], 0, 60, 300⟩ 5
      (fun k => if k = "access_second" then some (-1 : Int) else none)
      ⟨"second", 1, by decide, -1, by decide, by decide⟩⟩

end FlaskPPC
